import Mathlib

/-!
Verification of the ECS redeploy trigger of this repository.

The repository contains two variants of the Lambda trigger handler:
an AWS-SDK-v3 variant (ECSClient / UpdateServiceCommand, with a try/catch
that wraps failures) and an AWS-SDK-v2 variant (AWS.ECS().updateService,
with no try/catch), plus a CDK stack whose EventBridge rule
(EcrPushEventRule) filters ECR events by action-type PUSH and repository
name before invoking the Lambda.

The embedding below models JavaScript JSON values, the process
environment, the ECS UpdateService request object literal, JS error
objects, console logging as emission of structured entries, and the
external ECS control plane (the Service Runtime) as a deterministic
function from requests to either a response or an error.
-/

/-- JavaScript JSON values: the Lambda event payloads and the Service
Runtime acknowledgment objects are plain JSON. -/
inductive Json where
  | null : Json
  | bool : Bool → Json
  | num : Int → Json
  | str : String → Json
  | arr : List Json → Json
  | obj : List (String × Json) → Json

/-- Field access on a JSON object, as EventBridge pattern matching reads
event fields; non-objects and absent keys yield none (undefined). -/
def Json.lookup : Json → String → Option Json
  | .obj fields, key => List.lookup key fields
  | _, _ => none

/-- The process environment visible to the handlers: process.env.X is
undefined (none) when the variable is unset. -/
structure Env where
  CLUSTER_NAME : Option String := none
  SERVICE_NAME : Option String := none
  TASK_DEFINITION : Option String := none
  AWS_REGION : Option String := none

/-- A JavaScript error object as produced by the AWS SDK or by
new Error(message): a name, a message, and optional SDK fields
(error code and HTTP status code). -/
structure JsError where
  name : String
  message : String
  code : Option String := none
  statusCode : Option Nat := none
deriving DecidableEq

/-- The UpdateService request object literal built by both handlers:
exactly the keys cluster, service and forceNewDeployment appear in the
source literal. cluster and service are Option String because process.env
lookups can be undefined and are passed through unchecked. -/
structure UpdateServiceRequest where
  cluster : Option String
  service : Option String
  forceNewDeployment : Bool
deriving DecidableEq

/-- The external ECS control plane (Service Runtime), modeled as a
deterministic responder: each sent request either succeeds with a JSON
acknowledgment or fails with a JS error. -/
def ServiceRuntime : Type := UpdateServiceRequest → Except JsError Json

/-- One console log line emitted by either handler variant, kept as a
structured entry; one constructor per console call site in the source. -/
inductive LogEntry where
  | ecrEvent : Json → LogEntry
  | updatingEcsService : LogEntry
  | ecsServiceUpdated : Json → LogEntry
  | errorUpdatingEcsService : JsError → LogEntry
  | updatingService : Option String → Option String → Option String → LogEntry
  | serviceUpdated : Json → LogEntry

/-- Whether a log entry is the console.error line recording a failure. -/
def LogEntry.isErrorLog : LogEntry → Bool
  | .errorUpdatingEcsService _ => true
  | _ => false

/-- The observable outcome of one handler invocation: the value returned
to (or the error raised at) the invoking framework, the list of requests
sent to the Service Runtime, and the log lines emitted. -/
structure HandlerOutcome where
  result : Except JsError Json
  calls : List UpdateServiceRequest
  logs : List LogEntry

/-- The request both handlers construct from the environment:
the object literal with cluster, service, forceNewDeployment true. -/
def configuredRequest (env : Env) : UpdateServiceRequest :=
  { cluster := env.CLUSTER_NAME
    service := env.SERVICE_NAME
    forceNewDeployment := true }

namespace SdkV3

/-- The error thrown by the SDK-v3 handler's catch block:
new Error with the template string, a plain Error (name Error, no SDK
fields) whose message interpolates only error.message. -/
def wrapError (e : JsError) : JsError :=
  { name := "Error", message := "ECS service update failed: " ++ e.message }

/-- The SDK-v3 handler (ECSClient / UpdateServiceCommand variant): logs
the event, sends one UpdateServiceCommand with cluster, service and
forceNewDeployment true, returns the response on success, and on failure
logs the error and throws the wrapped Error. -/
def handler (env : Env) (event : Json) (runtime : ServiceRuntime) : HandlerOutcome :=
  let cluster := env.CLUSTER_NAME
  let service := env.SERVICE_NAME
  let req : UpdateServiceRequest :=
    { cluster := cluster, service := service, forceNewDeployment := true }
  match runtime req with
  | .ok response =>
      { result := .ok response
        calls := [req]
        logs := [LogEntry.ecrEvent event, LogEntry.updatingEcsService,
                 LogEntry.ecsServiceUpdated response] }
  | .error e =>
      { result := .error (wrapError e)
        calls := [req]
        logs := [LogEntry.ecrEvent event, LogEntry.updatingEcsService,
                 LogEntry.errorUpdatingEcsService e] }

end SdkV3

namespace SdkV2

/-- The SDK-v2 handler (AWS.ECS().updateService variant): reads
CLUSTER_NAME, SERVICE_NAME and TASK_DEFINITION, logs them, sends one
updateService request with cluster, service and forceNewDeployment true
(TASK_DEFINITION is only logged, never sent), returns the response on
success; there is no try/catch, so a failure propagates unchanged without
any further log line. -/
def handler (env : Env) (event : Json) (runtime : ServiceRuntime) : HandlerOutcome :=
  let cluster := env.CLUSTER_NAME
  let service := env.SERVICE_NAME
  let taskDefinition := env.TASK_DEFINITION
  let req : UpdateServiceRequest :=
    { cluster := cluster, service := service, forceNewDeployment := true }
  match runtime req with
  | .ok updateResponse =>
      { result := .ok updateResponse
        calls := [req]
        logs := [LogEntry.updatingService cluster service taskDefinition,
                 LogEntry.serviceUpdated updateResponse] }
  | .error e =>
      { result := .error e
        calls := [req]
        logs := [LogEntry.updatingService cluster service taskDefinition] }

end SdkV2

/-- EventBridge exact-match on one string field of the pattern: the
event's field must be a string contained in the pattern's list. -/
def fieldMatchesOneOf (o : Json) (key : String) (allowed : List String) : Bool :=
  match o.lookup key with
  | some (Json.str s) => allowed.contains s
  | _ => false

/-- The EcrPushEventRule event pattern declared in the CDK stack
(source aws.ecr, detail-type ECR Image Action, detail.action-type PUSH,
detail.repository-name equal to the watched repository), under
EventBridge's exact-match semantics. -/
def ecrPushRuleMatches (repositoryName : String) (event : Json) : Bool :=
  fieldMatchesOneOf event "source" ["aws.ecr"] &&
  fieldMatchesOneOf event "detail-type" ["ECR Image Action"] &&
  (match event.lookup "detail" with
   | some detail =>
       fieldMatchesOneOf detail "action-type" ["PUSH"] &&
       fieldMatchesOneOf detail "repository-name" [repositoryName]
   | none => false)

/-- The action type carried by an event's detail object, when present
and a string. -/
def eventActionType (event : Json) : Option String :=
  match event.lookup "detail" with
  | some detail =>
      match detail.lookup "action-type" with
      | some (Json.str s) => some s
      | _ => none
  | none => none

/-- Requests reaching the Service Runtime through the deployed system
with the SDK-v3 handler: the EventBridge rule gates the Lambda, so a
non-matching event produces no invocation and no request. -/
def triggeredCallsV3 (repositoryName : String) (env : Env) (runtime : ServiceRuntime)
    (event : Json) : List UpdateServiceRequest :=
  if ecrPushRuleMatches repositoryName event then (SdkV3.handler env event runtime).calls
  else []

/-- Requests reaching the Service Runtime through the deployed system
with the SDK-v2 handler. -/
def triggeredCallsV2 (repositoryName : String) (env : Env) (runtime : ServiceRuntime)
    (event : Json) : List UpdateServiceRequest :=
  if ecrPushRuleMatches repositoryName event then (SdkV2.handler env event runtime).calls
  else []

/-- A sequence of SDK-v3 handler invocations, one outcome per event;
the handler keeps no state between invocations, so each is evaluated
independently. -/
def runInvocationsV3 (env : Env) (runtime : ServiceRuntime) : List Json → List HandlerOutcome
  | [] => []
  | e :: es => SdkV3.handler env e runtime :: runInvocationsV3 env runtime es

/-- A sequence of SDK-v2 handler invocations. -/
def runInvocationsV2 (env : Env) (runtime : ServiceRuntime) : List Json → List HandlerOutcome
  | [] => []
  | e :: es => SdkV2.handler env e runtime :: runInvocationsV2 env runtime es

/-- All requests the Service Runtime records across a sequence of SDK-v3
handler invocations, in order. -/
def recordedCallsV3 (env : Env) (runtime : ServiceRuntime) : List Json → List UpdateServiceRequest
  | [] => []
  | e :: es => (SdkV3.handler env e runtime).calls ++ recordedCallsV3 env runtime es

/-- The environment of the spec's scenario: CLUSTER_NAME main,
SERVICE_NAME app. -/
def envMain : Env := { CLUSTER_NAME := some "main", SERVICE_NAME := some "app" }

/-- The spec's scenario event: an ECR PUSH event for my-repo. -/
def eventPush : Json :=
  Json.obj [("source", Json.str "aws.ecr"),
            ("detail-type", Json.str "ECR Image Action"),
            ("detail", Json.obj [("action-type", Json.str "PUSH"),
                                 ("repository-name", Json.str "my-repo")])]

/-- An ECR event whose action type is DELETE, not PUSH. -/
def eventDelete : Json :=
  Json.obj [("source", Json.str "aws.ecr"),
            ("detail-type", Json.str "ECR Image Action"),
            ("detail", Json.obj [("action-type", Json.str "DELETE"),
                                 ("repository-name", Json.str "my-repo")])]

/-- The spec's scenario acknowledgment: deploymentId d-1. -/
def respD1 : Json := Json.obj [("deploymentId", Json.str "d-1")]

/-- A Service Runtime that accepts every request with the scenario
acknowledgment. -/
def okRuntime : ServiceRuntime := fun _ => Except.ok respD1

/-- The ServiceNotFoundException failure of the spec's failure scenario,
with SDK fields attached. -/
def errSNF : JsError :=
  { name := "ServiceNotFoundException"
    message := "ServiceNotFoundException"
    code := some "ServiceNotFoundException"
    statusCode := some 400 }

/-- A Service Runtime that rejects every request with errSNF. -/
def failRuntime : ServiceRuntime := fun _ => Except.error errSNF

/-- C1: For every Trigger Event, given CLUSTER_NAME and SERVICE_NAME set
in the environment and a Service Runtime that responds successfully, each
handler variant issues exactly one updateService request whose fields are
the configured cluster, the configured service, and
forceNewDeployment = true, and returns the Service Runtime's response
unchanged to the invoking framework. -/
theorem c1_single_forced_update_passthrough (env : Env) (event : Json)
    (runtime : ServiceRuntime) (c s : String) (resp : Json)
    (hc : env.CLUSTER_NAME = some c) (hs : env.SERVICE_NAME = some s)
    (hr : runtime (configuredRequest env) = Except.ok resp) :
    (SdkV3.handler env event runtime).calls =
      [{ cluster := some c, service := some s, forceNewDeployment := true }] ∧
    (SdkV3.handler env event runtime).result = Except.ok resp ∧
    (SdkV2.handler env event runtime).calls =
      [{ cluster := some c, service := some s, forceNewDeployment := true }] ∧
    (SdkV2.handler env event runtime).result = Except.ok resp := by
  simp only [configuredRequest] at hr
  rw [hc, hs] at hr
  simp [SdkV3.handler, SdkV2.handler, hr, hc, hs]

/-- C1 witness: the spec's scenario, evaluated concretely. -/
theorem c1_single_forced_update_passthrough_witness :
    envMain.CLUSTER_NAME = some "main" ∧ envMain.SERVICE_NAME = some "app" ∧
    okRuntime (configuredRequest envMain) = Except.ok respD1 ∧
    ((SdkV3.handler envMain eventPush okRuntime).calls =
       [{ cluster := some "main", service := some "app", forceNewDeployment := true }] ∧
     (SdkV3.handler envMain eventPush okRuntime).result = Except.ok respD1 ∧
     (SdkV2.handler envMain eventPush okRuntime).calls =
       [{ cluster := some "main", service := some "app", forceNewDeployment := true }] ∧
     (SdkV2.handler envMain eventPush okRuntime).result = Except.ok respD1) :=
  ⟨rfl, rfl, rfl,
   c1_single_forced_update_passthrough envMain eventPush okRuntime "main" "app" respD1
     rfl rfl rfl⟩

/-- C2 counterexample: the SDK-v2 handler has no try/catch, so on a
Service Runtime failure it propagates the original error unchanged; its
message (here ServiceNotFoundException) is not of the form
"<operation> failed: <underlying message>". -/
theorem c2_counterexample :
    (SdkV2.handler envMain eventPush failRuntime).result = Except.error errSNF ∧
    errSNF.message = "ServiceNotFoundException" ∧
    ¬ ∃ op : String,
        "ServiceNotFoundException" = op ++ " failed: " ++ "ServiceNotFoundException" := by
  refine ⟨rfl, rfl, ?_⟩
  rintro ⟨op, h⟩
  have hlen := congrArg String.length h
  rw [String.length_append, String.length_append] at hlen
  have h9 : (" failed: ").length = 9 := rfl
  rw [h9] at hlen
  omega

/-- C2 (amended): on every Service Runtime failure, each variant raises
a single error carrying the original failure's message and issues exactly
one request (no retry); the SDK-v3 variant wraps it as
"ECS service update failed: <underlying message>", while the SDK-v2
variant propagates the original error unchanged rather than wrapping it. -/
theorem c2_failure_wrapping_no_retry (env : Env) (event : Json)
    (runtime : ServiceRuntime) (e : JsError)
    (hr : runtime (configuredRequest env) = Except.error e) :
    (SdkV3.handler env event runtime).result = Except.error (SdkV3.wrapError e) ∧
    (SdkV3.wrapError e).message = "ECS service update failed: " ++ e.message ∧
    (∃ pre post : String,
        (SdkV3.wrapError e).message = pre ++ e.message ++ post) ∧
    (SdkV3.handler env event runtime).calls = [configuredRequest env] ∧
    (SdkV2.handler env event runtime).result = Except.error e ∧
    (SdkV2.handler env event runtime).calls = [configuredRequest env] := by
  simp only [configuredRequest] at hr ⊢
  refine ⟨?_, rfl, ⟨"ECS service update failed: ", "", ?_⟩, ?_, ?_, ?_⟩ <;>
    simp [SdkV3.handler, SdkV2.handler, SdkV3.wrapError, hr]

/-- C2 witness: the spec's failure scenario, evaluated concretely. -/
theorem c2_failure_wrapping_no_retry_witness :
    failRuntime (configuredRequest envMain) = Except.error errSNF ∧
    ((SdkV3.handler envMain eventPush failRuntime).result =
       Except.error (SdkV3.wrapError errSNF) ∧
     (SdkV3.wrapError errSNF).message =
       "ECS service update failed: " ++ errSNF.message ∧
     (∃ pre post : String,
         (SdkV3.wrapError errSNF).message = pre ++ errSNF.message ++ post) ∧
     (SdkV3.handler envMain eventPush failRuntime).calls = [configuredRequest envMain] ∧
     (SdkV2.handler envMain eventPush failRuntime).result = Except.error errSNF ∧
     (SdkV2.handler envMain eventPush failRuntime).calls = [configuredRequest envMain]) :=
  ⟨rfl, c2_failure_wrapping_no_retry envMain eventPush failRuntime errSNF rfl⟩

/-- C3: neither handler variant guards missing configuration. With
CLUSTER_NAME unset, the handler still sends one updateService request
(with an undefined cluster field) instead of raising a configuration
error before the call: at this input one Service Runtime call is
recorded, not zero, and the invocation even succeeds when the runtime
accepts the malformed request. -/
theorem c3_no_missing_config_guard :
    (SdkV3.handler { SERVICE_NAME := some "app" } eventPush okRuntime).calls =
      [{ cluster := none, service := some "app", forceNewDeployment := true }] ∧
    (SdkV3.handler { SERVICE_NAME := some "app" } eventPush okRuntime).result =
      Except.ok respD1 ∧
    (SdkV2.handler { SERVICE_NAME := some "app" } eventPush okRuntime).calls =
      [{ cluster := none, service := some "app", forceNewDeployment := true }] ∧
    (SdkV2.handler { SERVICE_NAME := some "app" } eventPush okRuntime).result =
      Except.ok respD1 :=
  ⟨rfl, rfl, rfl, rfl⟩

/-- C4: invoking the SDK-v3 handler twice in succession with the same
event, the same environment, and a Service Runtime that accepts both
requests issues exactly two independent updateService requests — no
deduplication or suppression of the second invocation's request. -/
theorem c4_two_invocations_two_requests (env : Env) (event : Json)
    (runtime : ServiceRuntime) (resp : Json)
    (hr : runtime (configuredRequest env) = Except.ok resp) :
    recordedCallsV3 env runtime [event, event] =
      [configuredRequest env, configuredRequest env] ∧
    (recordedCallsV3 env runtime [event, event]).length = 2 ∧
    runInvocationsV3 env runtime [event, event] =
      [SdkV3.handler env event runtime, SdkV3.handler env event runtime] := by
  simp only [configuredRequest] at hr ⊢
  refine ⟨?_, ?_, rfl⟩ <;>
    simp [recordedCallsV3, SdkV3.handler, hr]

/-- C4 witness: two invocations on the spec's scenario, concretely. -/
theorem c4_two_invocations_two_requests_witness :
    okRuntime (configuredRequest envMain) = Except.ok respD1 ∧
    (recordedCallsV3 envMain okRuntime [eventPush, eventPush] =
       [configuredRequest envMain, configuredRequest envMain] ∧
     (recordedCallsV3 envMain okRuntime [eventPush, eventPush]).length = 2 ∧
     runInvocationsV3 envMain okRuntime [eventPush, eventPush] =
       [SdkV3.handler envMain eventPush okRuntime,
        SdkV3.handler envMain eventPush okRuntime]) :=
  ⟨rfl, c4_two_invocations_two_requests envMain eventPush okRuntime respD1 rfl⟩

/-- C5: for any two Trigger Events (including malformed ones), with the
same environment and the same Service Runtime, each handler variant
issues the same updateService request and produces the same result: apart
from logging, the observable behavior does not depend on any field of the
event. -/
theorem c5_event_independence (env : Env) (e1 e2 : Json) (runtime : ServiceRuntime) :
    (SdkV3.handler env e1 runtime).calls = (SdkV3.handler env e2 runtime).calls ∧
    (SdkV3.handler env e1 runtime).result = (SdkV3.handler env e2 runtime).result ∧
    (SdkV2.handler env e1 runtime).calls = (SdkV2.handler env e2 runtime).calls ∧
    (SdkV2.handler env e1 runtime).result = (SdkV2.handler env e2 runtime).result := by
  cases hr : runtime { cluster := env.CLUSTER_NAME, service := env.SERVICE_NAME,
                       forceNewDeployment := true } <;>
    simp [SdkV3.handler, SdkV2.handler, hr]

/-- C6: an event whose action type is not PUSH does not match the
EcrPushEventRule pattern, so the Lambda is never invoked and no redeploy
request reaches the Service Runtime, for either handler variant. -/
theorem c6_non_push_event_not_triggered (repositoryName : String) (env : Env)
    (runtime : ServiceRuntime) (event : Json)
    (h : eventActionType event ≠ some "PUSH") :
    triggeredCallsV3 repositoryName env runtime event = [] ∧
    triggeredCallsV2 repositoryName env runtime event = [] := by
  have hm : ecrPushRuleMatches repositoryName event = false := by
    unfold ecrPushRuleMatches
    cases hd : event.lookup "detail" with
    | none => simp
    | some detail =>
        have hfm : fieldMatchesOneOf detail "action-type" ["PUSH"] = false := by
          unfold fieldMatchesOneOf
          cases ha : detail.lookup "action-type" with
          | none => rfl
          | some v =>
              cases v with
              | str s =>
                  rcases eq_or_ne s "PUSH" with hs | hs
                  · subst hs
                    refine absurd ?_ h
                    unfold eventActionType
                    simp only [hd, ha]
                  · simp [hs, Ne.symm hs]
              | null => rfl
              | bool b => rfl
              | num n => rfl
              | arr xs => rfl
              | obj fields => rfl
        simp [hfm]
  simp [triggeredCallsV3, triggeredCallsV2, hm]

/-- C6 witness: a DELETE event is filtered out, concretely. -/
theorem c6_non_push_event_not_triggered_witness :
    eventActionType eventDelete ≠ some "PUSH" ∧
    (triggeredCallsV3 "my-repo" envMain okRuntime eventDelete = [] ∧
     triggeredCallsV2 "my-repo" envMain okRuntime eventDelete = []) :=
  ⟨by decide,
   c6_non_push_event_not_triggered "my-repo" envMain okRuntime eventDelete (by decide)⟩

/-- C7: the outbound request is exactly the three-field object with
cluster, service and forceNewDeployment = true; the TASK_DEFINITION
environment variable, even when set, never alters the request sent by
either variant (in the SDK-v2 variant it is read and logged only). -/
theorem c7_task_definition_never_sent (env : Env) (event : Json)
    (runtime : ServiceRuntime) (td : Option String) :
    (SdkV2.handler { env with TASK_DEFINITION := td } event runtime).calls =
      (SdkV2.handler env event runtime).calls ∧
    (SdkV3.handler { env with TASK_DEFINITION := td } event runtime).calls =
      (SdkV3.handler env event runtime).calls ∧
    (SdkV2.handler env event runtime).calls = [configuredRequest env] ∧
    (SdkV3.handler env event runtime).calls = [configuredRequest env] ∧
    (configuredRequest env).forceNewDeployment = true := by
  cases hr : runtime { cluster := env.CLUSTER_NAME, service := env.SERVICE_NAME,
                       forceNewDeployment := true } <;>
    simp [SdkV3.handler, SdkV2.handler, configuredRequest, hr]

/-- C8 counterexample: the SDK-v2 handler does not log the error before
propagating it. On a concrete Service Runtime failure its outcome is the
propagated error, yet its log trace contains no error entry at all — only
the initial configuration line emitted before the call. -/
theorem c8_counterexample :
    (SdkV2.handler envMain eventPush failRuntime).result = Except.error errSNF ∧
    (SdkV2.handler envMain eventPush failRuntime).logs.filter LogEntry.isErrorLog = [] ∧
    (SdkV2.handler envMain eventPush failRuntime).logs =
      [LogEntry.updatingService (some "main") (some "app") none] :=
  ⟨rfl, rfl, rfl⟩

/-- C8 (amended): logging is pure emission of structured entries and the
success/failure outcome is determined by the Service Runtime's response
alone, never altered by logging; no variant swallows a failure — every
runtime error surfaces to the caller. The SDK-v3 variant logs the error
before propagating it; the SDK-v2 variant propagates the failure without
logging it. -/
theorem c8_logging_and_propagation (env : Env) (event : Json)
    (runtime : ServiceRuntime) (e : JsError)
    (hr : runtime (configuredRequest env) = Except.error e) :
    (SdkV3.handler env event runtime).result = Except.error (SdkV3.wrapError e) ∧
    LogEntry.errorUpdatingEcsService e ∈ (SdkV3.handler env event runtime).logs ∧
    (SdkV3.handler env event runtime).logs.getLast? =
      some (LogEntry.errorUpdatingEcsService e) ∧
    (SdkV2.handler env event runtime).result = Except.error e ∧
    (SdkV2.handler env event runtime).logs.filter LogEntry.isErrorLog = [] := by
  simp only [configuredRequest] at hr
  refine ⟨?_, ?_, ?_, ?_, ?_⟩ <;>
    simp [SdkV3.handler, SdkV2.handler, hr, LogEntry.isErrorLog, List.getLast?]

/-- C8 witness: the failure scenario, evaluated concretely. -/
theorem c8_logging_and_propagation_witness :
    failRuntime (configuredRequest envMain) = Except.error errSNF ∧
    ((SdkV3.handler envMain eventPush failRuntime).result =
       Except.error (SdkV3.wrapError errSNF) ∧
     LogEntry.errorUpdatingEcsService errSNF ∈
       (SdkV3.handler envMain eventPush failRuntime).logs ∧
     (SdkV3.handler envMain eventPush failRuntime).logs.getLast? =
       some (LogEntry.errorUpdatingEcsService errSNF) ∧
     (SdkV2.handler envMain eventPush failRuntime).result = Except.error errSNF ∧
     (SdkV2.handler envMain eventPush failRuntime).logs.filter LogEntry.isErrorLog = []) :=
  ⟨rfl, c8_logging_and_propagation envMain eventPush failRuntime errSNF rfl⟩

/-- C9: the trigger holds no shared mutable state between invocations:
in any sequence of invocations, the outcome at each position equals the
outcome of running that invocation alone, a function only of its own
environment, event and Service Runtime — earlier invocations cannot
influence later ones. -/
theorem c9_stateless_invocations (env : Env) (runtime : ServiceRuntime)
    (events : List Json) (i : Nat) :
    (runInvocationsV3 env runtime events)[i]? =
      (events[i]?).map (fun e => SdkV3.handler env e runtime) ∧
    (runInvocationsV2 env runtime events)[i]? =
      (events[i]?).map (fun e => SdkV2.handler env e runtime) := by
  induction events generalizing i with
  | nil => simp [runInvocationsV3, runInvocationsV2]
  | cons e es ih =>
      cases i with
      | zero => simp [runInvocationsV3, runInvocationsV2]
      | succ j => simpa [runInvocationsV3, runInvocationsV2] using ih j

/-- C10: the SDK-v3 handler's catch block rebuilds a plain Error from the
template string, preserving only error.message: name, code and status
code of the underlying failure are discarded, so two failures with equal
messages yield raised errors indistinguishable to the caller. -/
theorem c10_only_message_preserved (env : Env) (event : Json)
    (r1 r2 : ServiceRuntime) (e1 e2 : JsError)
    (h1 : r1 (configuredRequest env) = Except.error e1)
    (h2 : r2 (configuredRequest env) = Except.error e2)
    (hm : e1.message = e2.message) :
    (SdkV3.handler env event r1).result = (SdkV3.handler env event r2).result ∧
    (SdkV3.handler env event r1).result =
      Except.error { name := "Error",
                     message := "ECS service update failed: " ++ e1.message,
                     code := none, statusCode := none } := by
  simp only [configuredRequest] at h1 h2
  constructor <;> simp [SdkV3.handler, SdkV3.wrapError, h1, h2, hm]

/-- C10 witness: an access-denied failure and a throttling failure with
the same message are raised identically. -/
theorem c10_only_message_preserved_witness :
    ((fun _ => Except.error { name := "AccessDeniedException", message := "boom",
                              code := some "AccessDenied", statusCode := some 403 }
        : ServiceRuntime) (configuredRequest envMain) =
      Except.error { name := "AccessDeniedException", message := "boom",
                     code := some "AccessDenied", statusCode := some 403 }) ∧
    ((fun _ => Except.error { name := "ThrottlingException", message := "boom",
                              statusCode := some 429 }
        : ServiceRuntime) (configuredRequest envMain) =
      Except.error { name := "ThrottlingException", message := "boom",
                     statusCode := some 429 }) ∧
    ((SdkV3.handler envMain eventPush
        (fun _ => Except.error { name := "AccessDeniedException", message := "boom",
                                 code := some "AccessDenied", statusCode := some 403 })).result =
       (SdkV3.handler envMain eventPush
        (fun _ => Except.error { name := "ThrottlingException", message := "boom",
                                 statusCode := some 429 })).result ∧
     (SdkV3.handler envMain eventPush
        (fun _ => Except.error { name := "AccessDeniedException", message := "boom",
                                 code := some "AccessDenied", statusCode := some 403 })).result =
       Except.error { name := "Error", message := "ECS service update failed: " ++ "boom",
                      code := none, statusCode := none }) :=
  ⟨rfl, rfl,
   c10_only_message_preserved envMain eventPush
     (fun _ => Except.error { name := "AccessDeniedException", message := "boom",
                              code := some "AccessDenied", statusCode := some 403 })
     (fun _ => Except.error { name := "ThrottlingException", message := "boom",
                              statusCode := some 429 })
     { name := "AccessDeniedException", message := "boom",
       code := some "AccessDenied", statusCode := some 403 }
     { name := "ThrottlingException", message := "boom", statusCode := some 429 }
     rfl rfl rfl⟩
